import Mathlib

/-!
Verification development for the two Soroban contracts of this repository:
`contracts/soroswap-auth` (entry point `swap`) and `contracts/defindex-zap`
(entry point `deposit`).  Each entry point is embedded as a pure function
from an environment (the host's responses: caller authentication, the
router's `pair_for` answer and swap result, the vault's reply) and the
contract's persisted instance state to a triple of

  * an `Outcome` (normal return value, structured contract error, failed
    caller authentication, or a host trap from `unwrap` on `None`),
  * the ordered trace of observable host interactions (`Step` list), and
  * the instance state after the call.

The trace records, in source order, every `require_auth`, TTL extension,
instance-storage read, token transfer, router/vault invocation and
`authorize_as_current_contract` declaration the entry point performs.
-/

/-- Opaque Soroban `Address`, embedded as a natural-number identifier. -/
abbrev Address := Nat

/-- Soroban host values (`Val`) as they occur in the authorization
argument vectors built by this repository: addresses and `i128` amounts. -/
inductive Val where
  | addr (a : Address)
  | i128 (n : Int)
deriving DecidableEq, Repr

/-- `soroban_sdk::auth::ContractContext`: the contract, function name and
exact argument list a delegated authorization covers. -/
structure ContractContext where
  contract : Address
  fn_name : String
  args : List Val
deriving DecidableEq, Repr

/-- `soroban_sdk::auth::InvokerContractAuthEntry`: a delegated
authorization entry, a `ContractContext` together with the nested
sub-invocations it additionally authorizes (`SubContractInvocation`
flattened into the single `Contract` constructor). -/
inductive InvokerContractAuthEntry where
  | Contract (context : ContractContext)
      (sub_invocations : List InvokerContractAuthEntry)

/-- Keys of the persisted instance configuration (`storage` module):
the router address, the vault address, and the underlying asset. -/
inductive ConfigKey where
  | Router
  | Vault
  | UnderlyingAsset
deriving DecidableEq, Repr

/-- One observable host interaction performed by an entry point, in
source order. -/
inductive Step where
  | requireAuth (who : Address)
  | extendTtl
  | configRead (key : ConfigKey)
  | transfer (token from_ to_ : Address) (amount : Int)
  | pairFor (router token_a token_b : Address)
  | authorize (entries : List InvokerContractAuthEntry)
  | routerSwap (router : Address) (amount_in amount_out_min : Int)
      (path : List Address) (to_ : Address) (deadline : Nat)
  | vaultDeposit (vault : Address) (amounts_desired amounts_min : List Int)
      (from_ : Address) (invest : Bool)

/-- Is this step a token custody transfer issued by the contract itself? -/
def Step.isTransfer : Step → Bool
  | .transfer _ _ _ _ => true
  | _ => false

/-- Is this step an `authorize_as_current_contract` declaration? -/
def Step.isAuthorize : Step → Bool
  | .authorize _ => true
  | _ => false

/-- Is this step a `router_pair_for` router invocation? -/
def Step.isPairFor : Step → Bool
  | .pairFor _ _ _ => true
  | _ => false

/-- Is this step a `swap_exact_tokens_for_tokens` router invocation? -/
def Step.isRouterSwap : Step → Bool
  | .routerSwap _ _ _ _ _ _ => true
  | _ => false

/-- Is this step a vault `deposit` invocation? -/
def Step.isVaultDeposit : Step → Bool
  | .vaultDeposit _ _ _ _ _ => true
  | _ => false

/-- Is this step a TTL extension of the instance storage? -/
def Step.isExtendTtl : Step → Bool
  | .extendTtl => true
  | _ => false

/-- Is this step a read of a persisted configuration address? -/
def Step.isConfigRead : Step → Bool
  | .configRead _ => true
  | _ => false

/-- An external call in the sense of the spec: a custody transfer, a
delegated-authorization declaration, or a router/vault invocation. -/
def Step.isExternalCall : Step → Bool
  | .transfer _ _ _ _ => true
  | .pairFor _ _ _ => true
  | .authorize _ => true
  | .routerSwap _ _ _ _ _ _ => true
  | .vaultDeposit _ _ _ _ _ => true
  | _ => false

/-- `u64::MAX`, the deadline both contracts pass to the router. -/
def U64_MAX : Nat := 2 ^ 64 - 1

/-- The host environment an invocation runs against: the contract's own
address, which callers have signed (`require_auth` succeeds), and the
opaque external collaborators' responses (router `pair_for`, router swap
result as a function of the exact call arguments, vault deposit reply). -/
structure HostEnv where
  current_contract_address : Address
  authorized : Address → Bool
  router_pair_for : Address → Address → Address
  router_swap_result : Int → Int → List Address → Address → Nat → List Int
  vault_deposit_result : List Int → List Int → Address → Bool → List Int × Int

/-- Error type of `contracts/soroswap-auth` (`error` module); the variant
raised by `check_nonnegative_amount` is named at its use site in
`lib.rs`. -/
inductive SoroswapError where
  | NegativeNotAllowed
deriving DecidableEq, Repr

/-- Error type of `contracts/defindex-zap` (`error` module); the variant
raised by `check_nonnegative_amount` is named at its use site in
`lib.rs`. -/
inductive DeFindexError where
  | NegativeNotAllowed
deriving DecidableEq, Repr

/-- How an invocation ends: normal return, structured contract error,
failed `require_auth`, or a host trap (Rust `unwrap` on `None`). -/
inductive Outcome (ε α : Type) where
  | ok (val : α)
  | err (e : ε)
  | authFailed
  | trapped
deriving DecidableEq, Repr

/-- `check_nonnegative_amount` of `contracts/soroswap-auth/src/lib.rs`. -/
def Soroswap.check_nonnegative_amount (amount : Int) :
    Except SoroswapError Unit :=
  if amount < 0 then Except.error SoroswapError.NegativeNotAllowed
  else Except.ok ()

/-- `check_nonnegative_amount` of `contracts/defindex-zap/src/lib.rs`. -/
def DeFindex.check_nonnegative_amount (amount : Int) :
    Except DeFindexError Unit :=
  if amount < 0 then Except.error DeFindexError.NegativeNotAllowed
  else Except.ok ()

/-- Modelled from the spec: the persisted instance state of
`contracts/soroswap-auth` (its `storage` module is not in the sources);
per the spec it is a mapping holding the router address, written once at
construction. -/
structure SoroswapState where
  soroswap_router_address : Address
deriving DecidableEq, Repr

/-- Modelled from the spec: the persisted instance state of
`contracts/defindex-zap` (its `storage` module is not in the sources);
per the spec it holds the vault, router and underlying-asset addresses,
written once at construction. -/
structure DeFindexState where
  vault_address : Address
  soroswap_router_address : Address
  underlying_asset_address : Address
deriving DecidableEq, Repr

/-- Modelled from the spec: `set_soroswap_router_address` of the missing
`storage` module stores the router address in instance storage. -/
def Soroswap.set_soroswap_router_address (st : SoroswapState) (a : Address) :
    SoroswapState :=
  { st with soroswap_router_address := a }

/-- Modelled from the spec: `get_soroswap_router_address` of the missing
`storage` module reads the stored router address. -/
def Soroswap.get_soroswap_router_address (st : SoroswapState) : Address :=
  st.soroswap_router_address

/-- `SoroswapAuth::__constructor`: stores the router address. -/
def Soroswap.constructorFn (router_address : Address) : SoroswapState :=
  { soroswap_router_address := router_address }

/-- Modelled from the spec: the setters of `contracts/defindex-zap`'s
missing `storage` module store the three configuration addresses. -/
def DeFindex.set_addresses (vault_address router_address underlying_asset : Address) :
    DeFindexState :=
  { vault_address := vault_address
    soroswap_router_address := router_address
    underlying_asset_address := underlying_asset }

/-- `DeFindexSimple::__constructor`: stores vault, router and underlying
asset addresses. -/
def DeFindex.constructorFn (vault_address router_address underlying_asset : Address) :
    DeFindexState :=
  DeFindex.set_addresses vault_address router_address underlying_asset

/-- Modelled from the spec: `get_vault_address` of the missing `storage`
module reads the stored vault address. -/
def DeFindex.get_vault_address (st : DeFindexState) : Address :=
  st.vault_address

/-- Modelled from the spec: `get_soroswap_router_address` of the missing
`storage` module reads the stored router address. -/
def DeFindex.get_soroswap_router_address (st : DeFindexState) : Address :=
  st.soroswap_router_address

/-- Modelled from the spec: `get_underlying_asset_address` of the missing
`storage` module reads the stored underlying-asset address. -/
def DeFindex.get_underlying_asset_address (st : DeFindexState) : Address :=
  st.underlying_asset_address

/-- `SoroswapAuth::swap` of `contracts/soroswap-auth/src/lib.rs`, embedded
step by step in source order: `require_auth`, non-negativity check, TTL
extension, custody transfer caller → contract, router address read,
`router_pair_for`, path construction, the single
`authorize_as_current_contract` declaration, the router swap, and
`swap_result.last().unwrap()`. -/
def Soroswap.swap (env : HostEnv) (st : SoroswapState)
    (caller token_in token_out : Address) (amount : Int) :
    Outcome SoroswapError Int × List Step × SoroswapState :=
  if env.authorized caller = false then
    (Outcome.authFailed, [Step.requireAuth caller], st)
  else
    match Soroswap.check_nonnegative_amount amount with
    | Except.error e => (Outcome.err e, [Step.requireAuth caller], st)
    | Except.ok _ =>
      let self := env.current_contract_address
      let soroswap_router_address := Soroswap.get_soroswap_router_address st
      let pair_address := env.router_pair_for token_in token_out
      let path : List Address := [token_in, token_out]
      let transfer_args : List Val :=
        [Val.addr caller, Val.addr pair_address, Val.i128 amount]
      let entry : InvokerContractAuthEntry :=
        InvokerContractAuthEntry.Contract
          ⟨token_in, "transfer", transfer_args⟩ []
      let swap_result := env.router_swap_result amount 0 path caller U64_MAX
      let tr : List Step :=
        [Step.requireAuth caller,
         Step.extendTtl,
         Step.transfer token_in caller self amount,
         Step.configRead ConfigKey.Router,
         Step.pairFor soroswap_router_address token_in token_out,
         Step.authorize [entry],
         Step.routerSwap soroswap_router_address amount 0 path caller U64_MAX]
      let out : Outcome SoroswapError Int :=
        match swap_result.getLast? with
        | none => Outcome.trapped
        | some total_swapped_amount => Outcome.ok total_swapped_amount
      (out, tr, st)

/-- `DeFindexSimple::deposit` of `contracts/defindex-zap/src/lib.rs`,
embedded step by step in source order: `require_auth`, non-negativity
check, TTL extension, underlying-asset and router address reads, path
construction, the router swap, `swap_result.last().unwrap()`, vault
address read, and the vault `deposit` call (whose reply is discarded). -/
def DeFindex.deposit (env : HostEnv) (st : DeFindexState)
    (caller token_in : Address) (amount : Int) :
    Outcome DeFindexError Int × List Step × DeFindexState :=
  if env.authorized caller = false then
    (Outcome.authFailed, [Step.requireAuth caller], st)
  else
    match DeFindex.check_nonnegative_amount amount with
    | Except.error e => (Outcome.err e, [Step.requireAuth caller], st)
    | Except.ok _ =>
      let underlying_asset := DeFindex.get_underlying_asset_address st
      let soroswap_router_address := DeFindex.get_soroswap_router_address st
      let path : List Address := [token_in, underlying_asset]
      let swap_result := env.router_swap_result amount 0 path caller U64_MAX
      let tr0 : List Step :=
        [Step.requireAuth caller,
         Step.extendTtl,
         Step.configRead ConfigKey.UnderlyingAsset,
         Step.configRead ConfigKey.Router,
         Step.routerSwap soroswap_router_address amount 0 path caller U64_MAX]
      match swap_result.getLast? with
      | none => (Outcome.trapped, tr0, st)
      | some total_swapped_amount =>
        let defindex_vault_address := DeFindex.get_vault_address st
        let tr := tr0 ++
          [Step.configRead ConfigKey.Vault,
           Step.vaultDeposit defindex_vault_address
             [total_swapped_amount] [0] caller false]
        (Outcome.ok total_swapped_amount, tr, st)

/-! ### Run-shape helper lemmas -/

/-- If `require_auth` fails, `swap` aborts with only the failed
authentication attempt in its trace. -/
theorem Soroswap.swap_authFail (env : HostEnv) (st : SoroswapState)
    (caller token_in token_out : Address) (amount : Int)
    (hauth : env.authorized caller = false) :
    Soroswap.swap env st caller token_in token_out amount =
      (Outcome.authFailed, [Step.requireAuth caller], st) := by
  simp [Soroswap.swap, hauth]

/-- If the amount is negative (and authentication passed), `swap` returns
the structured error with only the authentication step in its trace. -/
theorem Soroswap.swap_negative (env : HostEnv) (st : SoroswapState)
    (caller token_in token_out : Address) (amount : Int)
    (hauth : env.authorized caller = true) (hamt : amount < 0) :
    Soroswap.swap env st caller token_in token_out amount =
      (Outcome.err SoroswapError.NegativeNotAllowed, [Step.requireAuth caller], st) := by
  simp [Soroswap.swap, Soroswap.check_nonnegative_amount, hauth, hamt]

/-- The full run of `swap` once authentication and validation pass. -/
theorem Soroswap.swap_run (env : HostEnv) (st : SoroswapState)
    (caller token_in token_out : Address) (amount : Int)
    (hauth : env.authorized caller = true) (hamt : ¬ amount < 0) :
    Soroswap.swap env st caller token_in token_out amount =
      ((match (env.router_swap_result amount 0 [token_in, token_out] caller
            U64_MAX).getLast? with
        | none => Outcome.trapped
        | some v => Outcome.ok v),
       [Step.requireAuth caller,
        Step.extendTtl,
        Step.transfer token_in caller env.current_contract_address amount,
        Step.configRead ConfigKey.Router,
        Step.pairFor st.soroswap_router_address token_in token_out,
        Step.authorize [InvokerContractAuthEntry.Contract
          ⟨token_in, "transfer",
           [Val.addr caller, Val.addr (env.router_pair_for token_in token_out),
            Val.i128 amount]⟩ []],
        Step.routerSwap st.soroswap_router_address amount 0
          [token_in, token_out] caller U64_MAX],
       st) := by
  simp [Soroswap.swap, Soroswap.check_nonnegative_amount, hauth, hamt,
    Soroswap.get_soroswap_router_address]

/-- If `require_auth` fails, `deposit` aborts with only the failed
authentication attempt in its trace. -/
theorem DeFindex.deposit_authFail (env : HostEnv) (st : DeFindexState)
    (caller token_in : Address) (amount : Int)
    (hauth : env.authorized caller = false) :
    DeFindex.deposit env st caller token_in amount =
      (Outcome.authFailed, [Step.requireAuth caller], st) := by
  simp [DeFindex.deposit, hauth]

/-- If the amount is negative (and authentication passed), `deposit`
returns the structured error with only the authentication step in its
trace. -/
theorem DeFindex.deposit_negative (env : HostEnv) (st : DeFindexState)
    (caller token_in : Address) (amount : Int)
    (hauth : env.authorized caller = true) (hamt : amount < 0) :
    DeFindex.deposit env st caller token_in amount =
      (Outcome.err DeFindexError.NegativeNotAllowed, [Step.requireAuth caller], st) := by
  simp [DeFindex.deposit, DeFindex.check_nonnegative_amount, hauth, hamt]

/-- The run of `deposit` when the router reports an empty amount
sequence: the `unwrap` traps before the vault is ever consulted. -/
theorem DeFindex.deposit_run_empty (env : HostEnv) (st : DeFindexState)
    (caller token_in : Address) (amount : Int)
    (hauth : env.authorized caller = true) (hamt : ¬ amount < 0)
    (hres : (env.router_swap_result amount 0
        [token_in, st.underlying_asset_address] caller U64_MAX).getLast? = none) :
    DeFindex.deposit env st caller token_in amount =
      (Outcome.trapped,
       [Step.requireAuth caller,
        Step.extendTtl,
        Step.configRead ConfigKey.UnderlyingAsset,
        Step.configRead ConfigKey.Router,
        Step.routerSwap st.soroswap_router_address amount 0
          [token_in, st.underlying_asset_address] caller U64_MAX],
       st) := by
  simp [DeFindex.deposit, DeFindex.check_nonnegative_amount, hauth, hamt,
    DeFindex.get_underlying_asset_address, DeFindex.get_soroswap_router_address,
    hres]

/-- The full run of `deposit` when the router reports a non-empty amount
sequence whose last element is `w`. -/
theorem DeFindex.deposit_run_some (env : HostEnv) (st : DeFindexState)
    (caller token_in : Address) (amount : Int) (w : Int)
    (hauth : env.authorized caller = true) (hamt : ¬ amount < 0)
    (hres : (env.router_swap_result amount 0
        [token_in, st.underlying_asset_address] caller U64_MAX).getLast? = some w) :
    DeFindex.deposit env st caller token_in amount =
      (Outcome.ok w,
       [Step.requireAuth caller,
        Step.extendTtl,
        Step.configRead ConfigKey.UnderlyingAsset,
        Step.configRead ConfigKey.Router,
        Step.routerSwap st.soroswap_router_address amount 0
          [token_in, st.underlying_asset_address] caller U64_MAX,
        Step.configRead ConfigKey.Vault,
        Step.vaultDeposit st.vault_address [w] [0] caller false],
       st) := by
  simp [DeFindex.deposit, DeFindex.check_nonnegative_amount, hauth, hamt,
    DeFindex.get_underlying_asset_address, DeFindex.get_soroswap_router_address,
    DeFindex.get_vault_address, hres]

/-! ### Concrete evaluation environments -/

/-- A concrete host environment where every caller is authenticated, the
router reports pair address `5` and the amount sequence `[7, 9]`. -/
def envW : HostEnv :=
  { current_contract_address := 0
    authorized := fun _ => true
    router_pair_for := fun _ _ => 5
    router_swap_result := fun _ _ _ _ _ => [(7 : Int), 9]
    vault_deposit_result := fun _ _ _ _ => ([(9 : Int)], 3) }

/-- Like `envW`, but the router reports an empty amount sequence. -/
def envE : HostEnv :=
  { envW with router_swap_result := fun _ _ _ _ _ => [] }

/-- A concrete soroswap-auth instance state. -/
def stW : SoroswapState := ⟨1⟩

/-- A concrete defindex-zap instance state. -/
def stD : DeFindexState := ⟨10, 11, 12⟩

/-! ### The claims -/

/-- C1: the delegated authorization entry constructed by
`swap(caller, token_in, token_out, amount)` names exactly `token_in` as
target contract, the function `"transfer"`, the argument tuple
`[caller, pair_for(token_in, token_out), amount]`, and an empty set of
nested sub-authorizations; it is the only authorization entry issued,
and it is issued exactly once per invocation. -/
theorem swap_delegated_authorization_exact (env : HostEnv) (st : SoroswapState)
    (caller token_in token_out : Address) (amount : Int)
    (hauth : env.authorized caller = true) (hamt : 0 ≤ amount) :
    (Soroswap.swap env st caller token_in token_out amount).2.1.filter
        Step.isAuthorize =
      [Step.authorize [InvokerContractAuthEntry.Contract
        ⟨token_in, "transfer",
         [Val.addr caller, Val.addr (env.router_pair_for token_in token_out),
          Val.i128 amount]⟩ []]] := by
  rw [Soroswap.swap_run env st caller token_in token_out amount hauth
    (not_lt.mpr hamt)]
  simp [List.filter, Step.isAuthorize]

/-- Witness for C1 at a concrete input. -/
theorem swap_delegated_authorization_exact_witness :
    envW.authorized 2 = true ∧ (0 : Int) ≤ 100 ∧
    (Soroswap.swap envW stW 2 3 4 100).2.1.filter Step.isAuthorize =
      [Step.authorize [InvokerContractAuthEntry.Contract
        ⟨3, "transfer", [Val.addr 2, Val.addr 5, Val.i128 100]⟩ []]] :=
  ⟨rfl, by decide,
   swap_delegated_authorization_exact envW stW 2 3 4 100 rfl (by decide)⟩

/-- C2: for every negative amount both `swap` and `deposit` perform zero
external calls, and (when the caller is authenticated, so the check is
reached) fail with the negative-amount error condition
(`NegativeNotAllowed`); for every non-negative amount the amount check
passes. -/
theorem negative_amount_rejected_no_external_calls
    (env : HostEnv) (st1 : SoroswapState) (st2 : DeFindexState)
    (caller token_in token_out : Address) (amount : Int) :
    (amount < 0 →
      (Soroswap.swap env st1 caller token_in token_out amount).2.1.filter
          Step.isExternalCall = [] ∧
      (DeFindex.deposit env st2 caller token_in amount).2.1.filter
          Step.isExternalCall = [] ∧
      (env.authorized caller = true →
        (Soroswap.swap env st1 caller token_in token_out amount).1 =
          Outcome.err SoroswapError.NegativeNotAllowed ∧
        (DeFindex.deposit env st2 caller token_in amount).1 =
          Outcome.err DeFindexError.NegativeNotAllowed)) ∧
    (0 ≤ amount →
      Soroswap.check_nonnegative_amount amount = Except.ok () ∧
      DeFindex.check_nonnegative_amount amount = Except.ok ()) := by
  constructor
  · intro hneg
    rcases h : env.authorized caller with _ | _
    · rw [Soroswap.swap_authFail env st1 caller token_in token_out amount h,
        DeFindex.deposit_authFail env st2 caller token_in amount h]
      refine ⟨by simp [List.filter, Step.isExternalCall],
        by simp [List.filter, Step.isExternalCall], ?_⟩
      intro hcontra
      cases hcontra
    · rw [Soroswap.swap_negative env st1 caller token_in token_out amount h hneg,
        DeFindex.deposit_negative env st2 caller token_in amount h hneg]
      exact ⟨by simp [List.filter, Step.isExternalCall],
        by simp [List.filter, Step.isExternalCall],
        fun _ => ⟨rfl, rfl⟩⟩
  · intro hpos
    constructor
    · simp [Soroswap.check_nonnegative_amount, not_lt.mpr hpos]
    · simp [DeFindex.check_nonnegative_amount, not_lt.mpr hpos]

/-- Witness for C2 at concrete inputs (amount `-1` rejected with the
structured error and an empty external-call trace; amount `5` passes the
check). -/
theorem negative_amount_rejected_no_external_calls_witness :
    (Soroswap.swap envW stW 2 3 4 (-1)).2.1.filter Step.isExternalCall = [] ∧
    (Soroswap.swap envW stW 2 3 4 (-1)).1 =
      Outcome.err SoroswapError.NegativeNotAllowed ∧
    (DeFindex.deposit envW stD 2 3 (-1)).1 =
      Outcome.err DeFindexError.NegativeNotAllowed ∧
    Soroswap.check_nonnegative_amount 5 = Except.ok () := by
  have h1 := negative_amount_rejected_no_external_calls envW stW stD 2 3 4 (-1)
  have h2 := negative_amount_rejected_no_external_calls envW stW stD 2 3 4 5
  exact ⟨(h1.1 (by decide)).1, ((h1.1 (by decide)).2.2 rfl).1,
    ((h1.1 (by decide)).2.2 rfl).2, (h2.2 (by decide)).1⟩

/-- C3: authentication and validation precede all effects.  Part (a): if
authentication fails or the amount is negative, neither operation makes
any external call (custody transfer, authorization declaration, router
or vault invocation) and neither returns normally.  Part (b):
authentication is attempted as the very first step of both operations.
Part (c): on the path where `swap` reaches its external calls, the
delegated-authorization declaration strictly precedes the router swap
call it covers, and the router swap does occur. -/
theorem auth_and_validation_precede_effects
    (env : HostEnv) (st1 : SoroswapState) (st2 : DeFindexState)
    (caller token_in token_out : Address) (amount : Int) :
    ((env.authorized caller = false ∨ amount < 0) →
      (Soroswap.swap env st1 caller token_in token_out amount).2.1.filter
          Step.isExternalCall = [] ∧
      (∀ v, (Soroswap.swap env st1 caller token_in token_out amount).1 ≠
          Outcome.ok v) ∧
      (DeFindex.deposit env st2 caller token_in amount).2.1.filter
          Step.isExternalCall = [] ∧
      (∀ v, (DeFindex.deposit env st2 caller token_in amount).1 ≠
          Outcome.ok v)) ∧
    ((Soroswap.swap env st1 caller token_in token_out amount).2.1.head? =
        some (Step.requireAuth caller) ∧
     (DeFindex.deposit env st2 caller token_in amount).2.1.head? =
        some (Step.requireAuth caller)) ∧
    (env.authorized caller = true → 0 ≤ amount →
      (Soroswap.swap env st1 caller token_in token_out amount).2.1.findIdx
          Step.isAuthorize <
        (Soroswap.swap env st1 caller token_in token_out amount).2.1.findIdx
          Step.isRouterSwap ∧
      (Soroswap.swap env st1 caller token_in token_out amount).2.1.findIdx
          Step.isRouterSwap <
        (Soroswap.swap env st1 caller token_in token_out amount).2.1.length) := by
  refine ⟨?_, ⟨?_, ?_⟩, ?_⟩
  · intro hfail
    have hcases : env.authorized caller = false ∨
        (env.authorized caller = true ∧ amount < 0) := by
      rcases hfail with h | h
      · exact Or.inl h
      · rcases ha : env.authorized caller with _ | _
        · exact Or.inl rfl
        · exact Or.inr ⟨rfl, h⟩
    rcases hcases with h | ⟨ha, h⟩
    · rw [Soroswap.swap_authFail env st1 caller token_in token_out amount h,
        DeFindex.deposit_authFail env st2 caller token_in amount h]
      refine ⟨?_, ?_, ?_, ?_⟩
      · simp [List.filter, Step.isExternalCall]
      · intro v hv
        cases hv
      · simp [List.filter, Step.isExternalCall]
      · intro v hv
        cases hv
    · rw [Soroswap.swap_negative env st1 caller token_in token_out amount ha h,
        DeFindex.deposit_negative env st2 caller token_in amount ha h]
      refine ⟨?_, ?_, ?_, ?_⟩
      · simp [List.filter, Step.isExternalCall]
      · intro v hv
        cases hv
      · simp [List.filter, Step.isExternalCall]
      · intro v hv
        cases hv
  · rcases ha : env.authorized caller with _ | _
    · rw [Soroswap.swap_authFail env st1 caller token_in token_out amount ha]
      rfl
    · rcases lt_or_le amount 0 with h | h
      · rw [Soroswap.swap_negative env st1 caller token_in token_out amount ha h]
        rfl
      · rw [Soroswap.swap_run env st1 caller token_in token_out amount ha
          (not_lt.mpr h)]
        rfl
  · rcases ha : env.authorized caller with _ | _
    · rw [DeFindex.deposit_authFail env st2 caller token_in amount ha]
      rfl
    · rcases lt_or_le amount 0 with h | h
      · rw [DeFindex.deposit_negative env st2 caller token_in amount ha h]
        rfl
      · rcases hres : (env.router_swap_result amount 0
            [token_in, st2.underlying_asset_address] caller U64_MAX).getLast?
            with _ | w
        · rw [DeFindex.deposit_run_empty env st2 caller token_in amount ha
            (not_lt.mpr h) hres]
          rfl
        · rw [DeFindex.deposit_run_some env st2 caller token_in amount w ha
            (not_lt.mpr h) hres]
          rfl
  · intro ha h
    rw [Soroswap.swap_run env st1 caller token_in token_out amount ha
      (not_lt.mpr h)]
    constructor
    · simp [List.findIdx, List.findIdx.go, Step.isAuthorize, Step.isRouterSwap]
    · simp [List.findIdx, List.findIdx.go, Step.isRouterSwap]

/-- Witness for C3 at concrete inputs: a negative amount yields an empty
external-call trace, and on a successful run the authorization
declaration's index precedes the router call's index. -/
theorem auth_and_validation_precede_effects_witness :
    (Soroswap.swap envW stW 2 3 4 (-7)).2.1.filter Step.isExternalCall = [] ∧
    (Soroswap.swap envW stW 2 3 4 100).2.1.findIdx Step.isAuthorize <
      (Soroswap.swap envW stW 2 3 4 100).2.1.findIdx Step.isRouterSwap := by
  have h1 := auth_and_validation_precede_effects envW stW stD 2 3 4 (-7)
  have h2 := auth_and_validation_precede_effects envW stW stD 2 3 4 100
  exact ⟨(h1.1 (Or.inr (by decide))).1, (h2.2.2 rfl (by decide)).1⟩

/-- C4: a successful `swap` debits the caller twice for `token_in`.  The
only custody transfer in the trace moves `amount` of `token_in` from the
caller into the contract's own custody, and the delegated authorization
additionally permits a transfer of `amount` of `token_in` from the
caller (not from the contract) to the pair; no trace step ever moves the
custodied amount out of the contract (there is no transfer whose source
is the contract and no other transfer at all). -/
theorem swap_double_debit_of_caller (env : HostEnv) (st : SoroswapState)
    (caller token_in token_out : Address) (amount : Int)
    (hauth : env.authorized caller = true) (hamt : 0 ≤ amount) :
    (Soroswap.swap env st caller token_in token_out amount).2.1.filter
        Step.isTransfer =
      [Step.transfer token_in caller env.current_contract_address amount] ∧
    (Soroswap.swap env st caller token_in token_out amount).2.1.filter
        Step.isAuthorize =
      [Step.authorize [InvokerContractAuthEntry.Contract
        ⟨token_in, "transfer",
         [Val.addr caller, Val.addr (env.router_pair_for token_in token_out),
          Val.i128 amount]⟩ []]] := by
  rw [Soroswap.swap_run env st caller token_in token_out amount hauth
    (not_lt.mpr hamt)]
  constructor
  · simp [List.filter, Step.isTransfer]
  · simp [List.filter, Step.isAuthorize]

/-- Witness for C4 at a concrete input. -/
theorem swap_double_debit_of_caller_witness :
    (Soroswap.swap envW stW 2 3 4 100).2.1.filter Step.isTransfer =
      [Step.transfer 3 2 0 100] ∧
    (Soroswap.swap envW stW 2 3 4 100).2.1.filter Step.isAuthorize =
      [Step.authorize [InvokerContractAuthEntry.Contract
        ⟨3, "transfer", [Val.addr 2, Val.addr 5, Val.i128 100]⟩ []]] :=
  swap_double_debit_of_caller envW stW 2 3 4 100 rfl (by decide)

/-- C5: every router swap invocation made by `swap` and `deposit` passes
exactly the validated amount as `amount_in`, a minimum-output floor of
`0`, a two-element path (`[token_in, token_out]` for swap,
`[token_in, underlying_asset]` for deposit), the original caller as
recipient, and `u64::MAX` as deadline — and each operation makes exactly
one such router swap invocation. -/
theorem router_swap_arguments_exact
    (env : HostEnv) (st1 : SoroswapState) (st2 : DeFindexState)
    (caller token_in token_out : Address) (amount : Int)
    (hauth : env.authorized caller = true) (hamt : 0 ≤ amount) :
    (Soroswap.swap env st1 caller token_in token_out amount).2.1.filter
        Step.isRouterSwap =
      [Step.routerSwap st1.soroswap_router_address amount 0
        [token_in, token_out] caller U64_MAX] ∧
    (DeFindex.deposit env st2 caller token_in amount).2.1.filter
        Step.isRouterSwap =
      [Step.routerSwap st2.soroswap_router_address amount 0
        [token_in, st2.underlying_asset_address] caller U64_MAX] := by
  constructor
  · rw [Soroswap.swap_run env st1 caller token_in token_out amount hauth
      (not_lt.mpr hamt)]
    simp [List.filter, Step.isRouterSwap]
  · rcases hres : (env.router_swap_result amount 0
        [token_in, st2.underlying_asset_address] caller U64_MAX).getLast?
        with _ | w
    · rw [DeFindex.deposit_run_empty env st2 caller token_in amount hauth
        (not_lt.mpr hamt) hres]
      simp [List.filter, Step.isRouterSwap]
    · rw [DeFindex.deposit_run_some env st2 caller token_in amount w hauth
        (not_lt.mpr hamt) hres]
      simp [List.filter, Step.isRouterSwap]

/-- Witness for C5 at a concrete input. -/
theorem router_swap_arguments_exact_witness :
    (Soroswap.swap envW stW 2 3 4 100).2.1.filter Step.isRouterSwap =
      [Step.routerSwap 1 100 0 [3, 4] 2 U64_MAX] ∧
    (DeFindex.deposit envW stD 2 3 100).2.1.filter Step.isRouterSwap =
      [Step.routerSwap 11 100 0 [3, 12] 2 U64_MAX] :=
  router_swap_arguments_exact envW stW stD 2 3 4 100 rfl (by decide)

/-- C6: both operations return the last element of the amount sequence
reported by the router; `deposit` forwards exactly that amount to the
vault's `deposit` with a zero minimum floor and the original caller as
beneficiary, returns that swapped amount, and its result does not depend
on the vault call's own return value. -/
theorem returns_router_last_amount_and_forwards_to_vault
    (env : HostEnv) (st1 : SoroswapState) (st2 : DeFindexState)
    (caller token_in token_out : Address) (amount : Int) (v w : Int)
    (hauth : env.authorized caller = true) (hamt : 0 ≤ amount)
    (h1 : (env.router_swap_result amount 0 [token_in, token_out] caller
        U64_MAX).getLast? = some v)
    (h2 : (env.router_swap_result amount 0
        [token_in, st2.underlying_asset_address] caller U64_MAX).getLast? =
        some w) :
    (Soroswap.swap env st1 caller token_in token_out amount).1 =
      Outcome.ok v ∧
    (DeFindex.deposit env st2 caller token_in amount).1 = Outcome.ok w ∧
    (DeFindex.deposit env st2 caller token_in amount).2.1.filter
        Step.isVaultDeposit =
      [Step.vaultDeposit st2.vault_address [w] [0] caller false] ∧
    (∀ f, DeFindex.deposit
        { env with vault_deposit_result := f } st2 caller token_in amount =
      DeFindex.deposit env st2 caller token_in amount) := by
  refine ⟨?_, ?_, ?_, ?_⟩
  · rw [Soroswap.swap_run env st1 caller token_in token_out amount hauth
      (not_lt.mpr hamt)]
    simp [h1]
  · rw [DeFindex.deposit_run_some env st2 caller token_in amount w hauth
      (not_lt.mpr hamt) h2]
  · rw [DeFindex.deposit_run_some env st2 caller token_in amount w hauth
      (not_lt.mpr hamt) h2]
    simp [List.filter, Step.isVaultDeposit]
  · intro f
    rfl

/-- Witness for C6 at a concrete input (the router of `envW` reports
`[7, 9]`, so both operations return `9`). -/
theorem returns_router_last_amount_and_forwards_to_vault_witness :
    (Soroswap.swap envW stW 2 3 4 100).1 = Outcome.ok 9 ∧
    (DeFindex.deposit envW stD 2 3 100).1 = Outcome.ok 9 ∧
    (DeFindex.deposit envW stD 2 3 100).2.1.filter Step.isVaultDeposit =
      [Step.vaultDeposit 10 [9] [0] 2 false] := by
  have h := returns_router_last_amount_and_forwards_to_vault envW stW stD
    2 3 4 100 9 9 rfl (by decide) rfl rfl
  exact ⟨h.1, h.2.1, h.2.2.1⟩

/-- C7: the configuration addresses are written at construction and no
public operation mutates them: each constructor stores exactly its
arguments, and both `swap` and `deposit` leave the instance state (the
stored router, vault and underlying-asset addresses) unchanged on every
path. -/
theorem configuration_immutable
    (env : HostEnv) (st1 : SoroswapState) (st2 : DeFindexState)
    (caller token_in token_out r vaddr raddr u : Address) (amount : Int) :
    (Soroswap.constructorFn r).soroswap_router_address = r ∧
    (DeFindex.constructorFn vaddr raddr u).vault_address = vaddr ∧
    (DeFindex.constructorFn vaddr raddr u).soroswap_router_address = raddr ∧
    (DeFindex.constructorFn vaddr raddr u).underlying_asset_address = u ∧
    (Soroswap.swap env st1 caller token_in token_out amount).2.2 = st1 ∧
    (DeFindex.deposit env st2 caller token_in amount).2.2 = st2 := by
  refine ⟨rfl, rfl, rfl, rfl, ?_, ?_⟩
  · rcases ha : env.authorized caller with _ | _
    · rw [Soroswap.swap_authFail env st1 caller token_in token_out amount ha]
    · rcases lt_or_le amount 0 with h | h
      · rw [Soroswap.swap_negative env st1 caller token_in token_out amount ha h]
      · rw [Soroswap.swap_run env st1 caller token_in token_out amount ha
          (not_lt.mpr h)]
  · rcases ha : env.authorized caller with _ | _
    · rw [DeFindex.deposit_authFail env st2 caller token_in amount ha]
    · rcases lt_or_le amount 0 with h | h
      · rw [DeFindex.deposit_negative env st2 caller token_in amount ha h]
      · rcases hres : (env.router_swap_result amount 0
            [token_in, st2.underlying_asset_address] caller U64_MAX).getLast?
            with _ | w
        · rw [DeFindex.deposit_run_empty env st2 caller token_in amount ha
            (not_lt.mpr h) hres]
        · rw [DeFindex.deposit_run_some env st2 caller token_in amount w ha
            (not_lt.mpr h) hres]

/-- C8: on every invocation that goes on to read the persisted
configuration, the TTL extension happens first: once authentication and
validation pass, both traces contain exactly one TTL extension, placed
strictly before the first configuration read (which does occur);
invocations rejected for a negative amount, like ones that fail
authentication, perform no TTL extension. -/
theorem ttl_extension_guards_config_reads
    (env : HostEnv) (st1 : SoroswapState) (st2 : DeFindexState)
    (caller token_in token_out : Address) (amount : Int) :
    (env.authorized caller = true → 0 ≤ amount →
      (Soroswap.swap env st1 caller token_in token_out amount).2.1.filter
          Step.isExtendTtl = [Step.extendTtl] ∧
      (Soroswap.swap env st1 caller token_in token_out amount).2.1.findIdx
          Step.isExtendTtl <
        (Soroswap.swap env st1 caller token_in token_out amount).2.1.findIdx
          Step.isConfigRead ∧
      (Soroswap.swap env st1 caller token_in token_out amount).2.1.findIdx
          Step.isConfigRead <
        (Soroswap.swap env st1 caller token_in token_out amount).2.1.length ∧
      (DeFindex.deposit env st2 caller token_in amount).2.1.filter
          Step.isExtendTtl = [Step.extendTtl] ∧
      (DeFindex.deposit env st2 caller token_in amount).2.1.findIdx
          Step.isExtendTtl <
        (DeFindex.deposit env st2 caller token_in amount).2.1.findIdx
          Step.isConfigRead ∧
      (DeFindex.deposit env st2 caller token_in amount).2.1.findIdx
          Step.isConfigRead <
        (DeFindex.deposit env st2 caller token_in amount).2.1.length) ∧
    (amount < 0 →
      (Soroswap.swap env st1 caller token_in token_out amount).2.1.filter
          Step.isExtendTtl = [] ∧
      (DeFindex.deposit env st2 caller token_in amount).2.1.filter
          Step.isExtendTtl = []) ∧
    (env.authorized caller = false →
      (Soroswap.swap env st1 caller token_in token_out amount).2.1.filter
          Step.isExtendTtl = [] ∧
      (DeFindex.deposit env st2 caller token_in amount).2.1.filter
          Step.isExtendTtl = []) := by
  refine ⟨?_, ?_, ?_⟩
  · intro ha h
    rw [Soroswap.swap_run env st1 caller token_in token_out amount ha
      (not_lt.mpr h)]
    rcases hres : (env.router_swap_result amount 0
        [token_in, st2.underlying_asset_address] caller U64_MAX).getLast?
        with _ | w
    · rw [DeFindex.deposit_run_empty env st2 caller token_in amount ha
        (not_lt.mpr h) hres]
      refine ⟨by simp [List.filter, Step.isExtendTtl], ?_, ?_,
        by simp [List.filter, Step.isExtendTtl], ?_, ?_⟩ <;>
        simp [List.findIdx, List.findIdx.go, Step.isExtendTtl, Step.isConfigRead]
    · rw [DeFindex.deposit_run_some env st2 caller token_in amount w ha
        (not_lt.mpr h) hres]
      refine ⟨by simp [List.filter, Step.isExtendTtl], ?_, ?_,
        by simp [List.filter, Step.isExtendTtl], ?_, ?_⟩ <;>
        simp [List.findIdx, List.findIdx.go, Step.isExtendTtl, Step.isConfigRead]
  · intro h
    rcases ha : env.authorized caller with _ | _
    · rw [Soroswap.swap_authFail env st1 caller token_in token_out amount ha,
        DeFindex.deposit_authFail env st2 caller token_in amount ha]
      exact ⟨by simp [List.filter, Step.isExtendTtl],
        by simp [List.filter, Step.isExtendTtl]⟩
    · rw [Soroswap.swap_negative env st1 caller token_in token_out amount ha h,
        DeFindex.deposit_negative env st2 caller token_in amount ha h]
      exact ⟨by simp [List.filter, Step.isExtendTtl],
        by simp [List.filter, Step.isExtendTtl]⟩
  · intro ha
    rw [Soroswap.swap_authFail env st1 caller token_in token_out amount ha,
      DeFindex.deposit_authFail env st2 caller token_in amount ha]
    exact ⟨by simp [List.filter, Step.isExtendTtl],
      by simp [List.filter, Step.isExtendTtl]⟩

/-- Witness for C8 at concrete inputs: a successful run extends the TTL
exactly once before its first configuration read, and a negative-amount
run performs no TTL extension. -/
theorem ttl_extension_guards_config_reads_witness :
    (Soroswap.swap envW stW 2 3 4 100).2.1.filter Step.isExtendTtl =
      [Step.extendTtl] ∧
    (DeFindex.deposit envW stD 2 3 100).2.1.findIdx Step.isExtendTtl <
      (DeFindex.deposit envW stD 2 3 100).2.1.findIdx Step.isConfigRead ∧
    (Soroswap.swap envW stW 2 3 4 (-2)).2.1.filter Step.isExtendTtl = [] := by
  have h1 := ttl_extension_guards_config_reads envW stW stD 2 3 4 100
  have h2 := ttl_extension_guards_config_reads envW stW stD 2 3 4 (-2)
  exact ⟨(h1.1 rfl (by decide)).1, (h1.1 rfl (by decide)).2.2.2.2.1,
    (h2.2.1 (by decide)).1⟩

/-- Does a step of `deposit`'s trace name the original caller directly:
a router swap with the caller as recipient, or a vault deposit with the
caller as beneficiary? -/
def depositExternalOk (caller : Address) : Step → Bool
  | Step.routerSwap _ _ _ _ to_ _ => to_ == caller
  | Step.vaultDeposit _ _ _ from_ _ => from_ == caller
  | _ => false

/-- C9: on every path, `deposit` performs no custody transfer, no
delegated-authorization declaration and no pair lookup; its only
external interactions are router swaps naming the caller as recipient
and vault deposits naming the caller as beneficiary. -/
theorem deposit_no_custody_no_delegation
    (env : HostEnv) (st : DeFindexState)
    (caller token_in : Address) (amount : Int) :
    (DeFindex.deposit env st caller token_in amount).2.1.filter
        Step.isTransfer = [] ∧
    (DeFindex.deposit env st caller token_in amount).2.1.filter
        Step.isAuthorize = [] ∧
    (DeFindex.deposit env st caller token_in amount).2.1.filter
        Step.isPairFor = [] ∧
    ((DeFindex.deposit env st caller token_in amount).2.1.filter
        Step.isExternalCall).all (depositExternalOk caller) = true := by
  rcases ha : env.authorized caller with _ | _
  · rw [DeFindex.deposit_authFail env st caller token_in amount ha]
    refine ⟨?_, ?_, ?_, ?_⟩ <;>
      simp [List.filter, List.all, Step.isTransfer, Step.isAuthorize,
        Step.isPairFor, Step.isExternalCall]
  · rcases lt_or_le amount 0 with h | h
    · rw [DeFindex.deposit_negative env st caller token_in amount ha h]
      refine ⟨?_, ?_, ?_, ?_⟩ <;>
        simp [List.filter, List.all, Step.isTransfer, Step.isAuthorize,
          Step.isPairFor, Step.isExternalCall]
    · rcases hres : (env.router_swap_result amount 0
          [token_in, st.underlying_asset_address] caller U64_MAX).getLast?
          with _ | w
      · rw [DeFindex.deposit_run_empty env st caller token_in amount ha
          (not_lt.mpr h) hres]
        refine ⟨?_, ?_, ?_, ?_⟩ <;>
          simp [List.filter, List.all, Step.isTransfer, Step.isAuthorize,
            Step.isPairFor, Step.isExternalCall, depositExternalOk]
      · rw [DeFindex.deposit_run_some env st caller token_in amount w ha
          (not_lt.mpr h) hres]
        refine ⟨?_, ?_, ?_, ?_⟩ <;>
          simp [List.filter, List.all, Step.isTransfer, Step.isAuthorize,
            Step.isPairFor, Step.isExternalCall, depositExternalOk]

/-- C10: once authentication and validation pass, each operation ends in
the host trap (the `unwrap` of a missing last element) exactly when the
router reports an empty amount sequence — never in a structured error —
so the success path exists only under a non-empty router reply. -/
theorem empty_router_result_traps
    (env : HostEnv) (st1 : SoroswapState) (st2 : DeFindexState)
    (caller token_in token_out : Address) (amount : Int)
    (hauth : env.authorized caller = true) (hamt : 0 ≤ amount) :
    ((Soroswap.swap env st1 caller token_in token_out amount).1 =
        Outcome.trapped ↔
      env.router_swap_result amount 0 [token_in, token_out] caller U64_MAX =
        []) ∧
    ((DeFindex.deposit env st2 caller token_in amount).1 = Outcome.trapped ↔
      env.router_swap_result amount 0 [token_in, st2.underlying_asset_address]
        caller U64_MAX = []) := by
  constructor
  · rw [Soroswap.swap_run env st1 caller token_in token_out amount hauth
      (not_lt.mpr hamt)]
    rcases hres : (env.router_swap_result amount 0 [token_in, token_out] caller
        U64_MAX).getLast? with _ | w
    · simp [hres]
      exact List.getLast?_eq_none_iff.mp hres
    · simp [hres]
      intro hempty
      rw [hempty] at hres
      cases hres
  · rcases hres : (env.router_swap_result amount 0
        [token_in, st2.underlying_asset_address] caller U64_MAX).getLast?
        with _ | w
    · rw [DeFindex.deposit_run_empty env st2 caller token_in amount hauth
        (not_lt.mpr hamt) hres]
      simp
      exact List.getLast?_eq_none_iff.mp hres
    · rw [DeFindex.deposit_run_some env st2 caller token_in amount w hauth
        (not_lt.mpr hamt) hres]
      simp
      intro hempty
      rw [hempty] at hres
      cases hres

/-- Witness for C10 at a concrete input: with the empty-reporting router
of `envE`, both operations end in the host trap. -/
theorem empty_router_result_traps_witness :
    (Soroswap.swap envE stW 2 3 4 100).1 = Outcome.trapped ∧
    (DeFindex.deposit envE stD 2 3 100).1 = Outcome.trapped := by
  have h := empty_router_result_traps envE stW stD 2 3 4 100 rfl (by decide)
  exact ⟨h.1.mpr rfl, h.2.mpr rfl⟩
